import Mathlib

/-!
A shallow embedding of the HTTP handlers of todo-api.

The handlers of `internal/handlers` and the helpers of `internal/utils` are
embedded as pure functions. A handler takes the request and the state of the
store and returns the response it writes, the statements it sent to the store
(in order), the token it obtained from `GenerateJWT` (if any) and the state of
the store afterwards.

Third-party code (`google/uuid`, `x/crypto/bcrypt`, `golang-jwt`, the clock)
is not part of the repository: it enters through the fields of `Env`.
-/

set_option linter.dupNamespace false

namespace TodoApi

/-! ## Go strings -/

/-- White space in the sense of Go's `unicode.IsSpace`, which is what
`strings.TrimSpace` removes. -/
def isSpace (c : Char) : Bool :=
  let n := c.toNat
  n = 9 || n = 10 || n = 11 || n = 12 || n = 13 || n = 32 || n = 0x85 || n = 0xA0 ||
  n = 0x1680 || (0x2000 ≤ n && n ≤ 0x200A) || n = 0x2028 || n = 0x2029 || n = 0x202F ||
  n = 0x205F || n = 0x3000

/-- Drops the longest prefix and the longest suffix whose characters satisfy `p`. -/
def trimFunc (p : Char → Bool) (l : List Char) : List Char :=
  ((l.dropWhile p).reverse.dropWhile p).reverse

/-- Go `strings.TrimSpace`. -/
def TrimSpace (s : String) : String :=
  ⟨trimFunc isSpace s.data⟩

/-- Go `strings.Trim(s, cutset)`: removes all leading and trailing characters
contained in `cutset`. -/
def Trim (s : String) (cutset : String) : String :=
  ⟨trimFunc (fun c => decide (c ∈ cutset.data)) s.data⟩

/-- Splitting a character list at every occurrence of `sep`; the result has one
more piece than there are separators (so the empty list gives one empty piece). -/
def splitChars (sep : Char) : List Char → List (List Char)
  | [] => [[]]
  | c :: cs =>
    if c = sep then [] :: splitChars sep cs
    else
      match splitChars sep cs with
      | [] => [[c]]
      | p :: ps => (c :: p) :: ps

/-- Go `strings.Split(s, sep)` for a one-character separator. -/
def Split (s : String) (sep : Char) : List String :=
  (splitChars sep s.data).map String.mk

/-- Go `fmt.Sprintf(pre + "%d", n)` for a non-negative `n`. -/
def sprintfD (pre : String) (n : Nat) : String :=
  pre ++ toString n

/-- A Go `error` value, identified by its message. -/
abbrev GoError := String

/-! ## Identifiers, time, models -/

/-- A `uuid.UUID` (sixteen bytes), as the number they spell. -/
structure UUID where
  val : Nat
  deriving DecidableEq, Repr

/-- The zero UUID, `uuid.Nil`. -/
def UUID.Nil : UUID := ⟨0⟩

/-- A wall-clock instant, in nanoseconds since the Unix epoch. -/
structure Time where
  nanos : Int
  deriving DecidableEq, Repr

/-- Go `time.Hour`, a duration in nanoseconds. -/
def Hour : Int := 3600 * 1000000000

/-- Go `Time.Add`. -/
def Time.Add (t : Time) (d : Int) : Time := ⟨t.nanos + d⟩

/-- Go `Time.Unix`: whole seconds since the epoch. -/
def Time.Unix (t : Time) : Int := t.nanos / 1000000000

/-- The record `models.Todo`. -/
structure Todo where
  ID : UUID
  Todo : String
  Completed : Bool
  CreatedAt : Time
  UpdatedAt : Time
  deriving DecidableEq, Repr

/-- The record `models.CreateTodoRequest`; an absent field decodes to "". -/
structure CreateTodoRequest where
  Todo : String
  deriving DecidableEq, Repr

/-- The record `models.UpdateTodoRequest`; a nil pointer is `none`. -/
structure UpdateTodoRequest where
  Todo : Option String
  Completed : Option Bool
  deriving DecidableEq, Repr

/-- The record `models.User`. -/
structure User where
  ID : UUID
  Email : String
  Password : String
  CreatedAt : Time
  UpdatedAt : Time
  deriving DecidableEq, Repr

/-- The record `models.CreateUserRequest`. -/
structure CreateUserRequest where
  Email : String
  Password : String
  deriving DecidableEq, Repr

/-- The record `models.LoginUserRequest`. -/
structure LoginUserRequest where
  Email : String
  Password : String
  deriving DecidableEq, Repr

/-- The record `models.LoginUserResponse`, tagged `json:"token"`. -/
structure LoginUserResponse where
  Token : String
  deriving DecidableEq, Repr

/-! ## The store, the response, the environment -/

/-- A value bound to a positional placeholder of a statement. -/
inductive Value where
  | str (s : String)
  | bool (b : Bool)
  | uuid (u : UUID)
  deriving DecidableEq, Repr

/-- A statement as the store receives it: the SQL text and the positional
arguments. -/
structure Stmt where
  query : String
  args : List Value
  deriving DecidableEq, Repr

/-- An error of the store: `sql.ErrNoRows`, or any other failure. -/
inductive DBError where
  | ErrNoRows
  | other (msg : String)
  deriving DecidableEq, Repr

/-- Modelled from the spec: the package `internal/database` (the type
`database.DB`, which the handlers hold) is missing; per the spec the store
"exposes parameterized query/execute primitives returning rows or an
affected-row count" and "signals no matching row distinctly from other
failures". A `QueryRow(q, args...).Scan(dest...)` call is one field per
destination shape: it returns the error (`none` for nil) together with what the
destinations hold afterwards, and the next state of the store. `Exec` returns
the failure of the call, or else what `RowsAffected` reports. -/
structure DB (σ : Type) where
  QueryRowTodo : String → List Value → σ → (Option DBError × Todo) × σ
  QueryRowUser : String → List Value → σ → (Option DBError × User) × σ
  QueryRowUUID : String → List Value → σ → (Option DBError × UUID) × σ
  Exec : String → List Value → σ → Except DBError (Except DBError Int) × σ

/-- A JSON document, as `json.Encoder.Encode` produces it from a Go value. -/
inductive JSON where
  | str (s : String)
  | bool (b : Bool)
  | time (t : Time)
  | uuid (u : UUID)
  | obj (fields : List (String × JSON))

/-- The body written to the `http.ResponseWriter`. -/
inductive Body where
  | empty
  | plain (s : String)
  | json (v : JSON)

/-- What a handler writes: status code, headers set, body. -/
structure Response where
  status : Nat
  headers : List (String × String)
  body : Body

/-- Go `http.Error(w, msg, code)`: a plain-text body, the message followed by a
newline. -/
def httpError (msg : String) (code : Nat) : Response :=
  { status := code
    headers := [("Content-Type", "text/plain; charset=utf-8"),
                ("X-Content-Type-Options", "nosniff")]
    body := Body.plain (msg ++ "\n") }

/-- The response of a handler that sets `Content-Type: application/json`,
writes the status and encodes `v`. -/
def jsonResponse (code : Nat) (v : JSON) : Response :=
  { status := code
    headers := [("Content-Type", "application/json")]
    body := Body.json v }

/-- The encoding of a `models.Todo`, by its `json` tags. -/
def todoJSON (t : TodoApi.Todo) : JSON :=
  JSON.obj [("id", JSON.uuid t.ID), ("todo", JSON.str t.Todo),
            ("completed", JSON.bool t.Completed), ("created_at", JSON.time t.CreatedAt),
            ("updated_at", JSON.time t.UpdatedAt)]

/-- The encoding of a `models.LoginUserResponse`, by its `json` tag. -/
def LoginUserResponse.toJSON (r : LoginUserResponse) : JSON :=
  JSON.obj [("token", JSON.str r.Token)]

/-- A value of a JWT claim. -/
inductive ClaimValue where
  | str (s : String)
  | num (n : Int)
  deriving DecidableEq, Repr

/-- Go `jwt.MapClaims`, in the order the source lists the keys. -/
abbrev MapClaims := List (String × ClaimValue)

/-- The value of claim `k`, if present. -/
def MapClaims.get (c : MapClaims) (k : String) : Option ClaimValue :=
  (c.find? (fun kv => kv.1 = k)).map Prod.snd

/-- The third-party functions the program calls, and the clock.
`now k` is what the `k`-th call of `time.Now()` (counting from 0) returns
while the request is served. -/
structure Env where
  uuidParse : String → Except GoError UUID
  uuidString : UUID → String
  bcryptGenerate : String → Except GoError String
  bcryptCompare : String → String → Option GoError
  SignedString : MapClaims → Except GoError String
  now : Nat → Time

/-- An HTTP request: method, URL path, and the outcome of decoding the JSON
body into the handler's request type (`none` when `Decode` returns an error). -/
structure Request (β : Type) where
  Method : String
  Path : String
  Body : Option β

/-- What serving one request did. -/
structure Outcome (σ : Type) where
  resp : Response
  stmts : List Stmt
  token : Option String
  state : σ

/-! ## internal/utils/crypt.go -/

/-- The function `HashPassword`: `bcrypt.GenerateFromPassword` at the default
cost, its result and error handed back unchanged. -/
def HashPassword (env : Env) (password : String) : Except GoError String :=
  env.bcryptGenerate password

/-- The function `CheckPassword`: `bcrypt.CompareHashAndPassword(hash, password)`;
`none` is a nil error. -/
def CheckPassword (env : Env) (password hash : String) : Option GoError :=
  env.bcryptCompare hash password

/-- The claim set `GenerateJWT` builds. Go evaluates the elements of the map
literal in source order, so the clock is read first for `exp` and then once
more for `iat`. -/
def jwtClaims (env : Env) (userID : UUID) (email : String) : MapClaims :=
  [("sub", ClaimValue.str (env.uuidString userID)),
   ("email", ClaimValue.str email),
   ("aud", ClaimValue.str "default"),
   ("exp", ClaimValue.num ((env.now 0).Add Hour).Unix),
   ("iat", ClaimValue.num (env.now 1).Unix)]

/-- The function `GenerateJWT`: the claim set, signed with the secret key. -/
def GenerateJWT (env : Env) (userID : UUID) (email : String) : Except GoError String :=
  match env.SignedString (jwtClaims env userID email) with
  | Except.error err => Except.error err
  | Except.ok token => Except.ok token

/-! ## internal/handlers/todo.go -/

/-- The method `extractIDFromPath`. -/
def extractIDFromPath (env : Env) (path : String) : Except GoError UUID :=
  let parts := Split (Trim path "/") '/'
  if parts.length < 2 then Except.error "invalid path"
  else env.uuidParse (parts.getLastD "")

/-- The statement of `GetTodo`. -/
def getTodoQuery : String :=
  "SELECT id, todo, completed, created_at, updated_at FROM todos WHERE id = $1"

/-- The handler `GetTodo`. -/
def GetTodo {σ : Type} (env : Env) (db : DB σ) (r : Request Unit) (s : σ) : Outcome σ :=
  if r.Method ≠ "GET" then ⟨httpError "Method not allowed" 405, [], none, s⟩
  else
    match extractIDFromPath env r.Path with
    | Except.error _ => ⟨httpError "Invalid todo ID" 400, [], none, s⟩
    | Except.ok id =>
      let res := db.QueryRowTodo getTodoQuery [Value.uuid id] s
      let log := [Stmt.mk getTodoQuery [Value.uuid id]]
      match res.1.1 with
      | some DBError.ErrNoRows => ⟨httpError "Todo not found" 404, log, none, res.2⟩
      | some (DBError.other _) => ⟨httpError "Internal server error" 500, log, none, res.2⟩
      | none => ⟨jsonResponse 200 (todoJSON res.1.2), log, none, res.2⟩

/-- The statement of `CreateTodo`. -/
def createTodoQuery : String :=
  "INSERT INTO todos (todo) VALUES ($1) RETURNING id, todo, completed, created_at, updated_at"

/-- The handler `CreateTodo`. -/
def CreateTodo {σ : Type} (db : DB σ) (r : Request CreateTodoRequest) (s : σ) : Outcome σ :=
  if r.Method ≠ "POST" then ⟨httpError "Method not allowed" 405, [], none, s⟩
  else
    match r.Body with
    | none => ⟨httpError "Invalid JSON" 400, [], none, s⟩
    | some req =>
      if TrimSpace req.Todo = "" then ⟨httpError "Todo text is required" 400, [], none, s⟩
      else
        let res := db.QueryRowTodo createTodoQuery [Value.str req.Todo] s
        let log := [Stmt.mk createTodoQuery [Value.str req.Todo]]
        match res.1.1 with
        | some _ => ⟨httpError "Internal server error" 500, log, none, res.2⟩
        | none => ⟨jsonResponse 201 (todoJSON res.1.2), log, none, res.2⟩

/-- The second half of `UpdateTodo`, from the test of `req.Completed` on, entered
with the `setParts`, `args` and `argCount` the first half has built. -/
def UpdateTodo.finish {σ : Type} (db : DB σ) (s : σ) (id : UUID) (req : UpdateTodoRequest)
    (setParts : List String) (args : List Value) (argCount : Nat) : Outcome σ :=
  let st : List String × List Value × Nat :=
    match req.Completed with
    | some c => (setParts ++ [sprintfD "completed = $" argCount], args ++ [Value.bool c],
        argCount + 1)
    | none => (setParts, args, argCount)
  if st.1.length = 0 then ⟨httpError "No fields to update" 400, [], none, s⟩
  else
    let query := "UPDATE todos SET " ++ ", ".intercalate st.1 ++
      sprintfD " WHERE id = $" st.2.2 ++
      " RETURNING id, todo, completed, created_at, updated_at"
    let args := st.2.1 ++ [Value.uuid id]
    let res := db.QueryRowTodo query args s
    let log := [Stmt.mk query args]
    match res.1.1 with
    | some DBError.ErrNoRows => ⟨httpError "Todo not found" 404, log, none, res.2⟩
    | some (DBError.other _) => ⟨httpError "Internal server error" 500, log, none, res.2⟩
    | none => ⟨jsonResponse 200 (todoJSON res.1.2), log, none, res.2⟩

/-- The handler `UpdateTodo`. -/
def UpdateTodo {σ : Type} (env : Env) (db : DB σ) (r : Request UpdateTodoRequest) (s : σ) :
    Outcome σ :=
  if r.Method ≠ "PUT" then ⟨httpError "Method not allowed" 405, [], none, s⟩
  else
    match extractIDFromPath env r.Path with
    | Except.error _ => ⟨httpError "Invalid todo ID" 400, [], none, s⟩
    | Except.ok id =>
      match r.Body with
      | none => ⟨httpError "Invalid JSON" 400, [], none, s⟩
      | some req =>
        match req.Todo with
        | some t =>
          if TrimSpace t = "" then ⟨httpError "Todo text cannot be empty" 400, [], none, s⟩
          else UpdateTodo.finish db s id req [sprintfD "todo = $" 1] [Value.str t] 2
        | none => UpdateTodo.finish db s id req [] [] 1

/-- The statement of `DeleteTodo`. -/
def deleteTodoQuery : String := "DELETE FROM todos WHERE id = $1"

/-- The handler `DeleteTodo`. -/
def DeleteTodo {σ : Type} (env : Env) (db : DB σ) (r : Request Unit) (s : σ) : Outcome σ :=
  if r.Method ≠ "DELETE" then ⟨httpError "Method not allowed" 405, [], none, s⟩
  else
    match extractIDFromPath env r.Path with
    | Except.error _ => ⟨httpError "Invalid todo ID" 400, [], none, s⟩
    | Except.ok id =>
      let res := db.Exec deleteTodoQuery [Value.uuid id] s
      let log := [Stmt.mk deleteTodoQuery [Value.uuid id]]
      match res.1 with
      | Except.error _ => ⟨httpError "Internal server error" 500, log, none, res.2⟩
      | Except.ok (Except.error _) => ⟨httpError "Internal server error" 500, log, none, res.2⟩
      | Except.ok (Except.ok rowsAffected) =>
        if rowsAffected = 0 then ⟨httpError "Todo not found" 404, log, none, res.2⟩
        else ⟨⟨204, [], Body.empty⟩, log, none, res.2⟩

/-! ## internal/handlers/users.go -/

/-- The lookup both `Signup` (as `checkUserQuery`) and `Login` send. -/
def checkUserQuery : String :=
  "SELECT id, email, password, created_at, updated_at FROM users WHERE email = $1"

/-- The insert of `Signup`. -/
def insertUserQuery : String :=
  "INSERT INTO users (email, password) VALUES($1, $2) RETURNING id"

/-- The handler `Signup`. -/
def Signup {σ : Type} (env : Env) (db : DB σ) (r : Request CreateUserRequest) (s : σ) :
    Outcome σ :=
  if r.Method ≠ "POST" then ⟨httpError "Method not allowed" 405, [], none, s⟩
  else
    match r.Body with
    | none => ⟨httpError "Invalid JSON" 400, [], none, s⟩
    | some body =>
      if TrimSpace body.Email = "" ∨ TrimSpace body.Password = "" then
        ⟨httpError "Email and password are required" 400, [], none, s⟩
      else
        match HashPassword env body.Password with
        | Except.error _ => ⟨httpError "Error hashing password" 500, [], none, s⟩
        | Except.ok hashedPassword =>
          let res := db.QueryRowUser checkUserQuery [Value.str body.Email] s
          let log := [Stmt.mk checkUserQuery [Value.str body.Email]]
          if res.1.1 = none then ⟨httpError "User already exists" 409, log, none, res.2⟩
          else if res.1.2.ID ≠ UUID.Nil then
            ⟨httpError "User already exists" 409, log, none, res.2⟩
          else
            let args := [Value.str body.Email, Value.str hashedPassword]
            let ins := db.QueryRowUUID insertUserQuery args res.2
            let log2 := log ++ [Stmt.mk insertUserQuery args]
            match ins.1.1 with
            | some _ => ⟨httpError "Error creating user" 500, log2, none, ins.2⟩
            | none =>
              match GenerateJWT env ins.1.2 body.Email with
              | Except.error _ => ⟨httpError "Error generating JWT" 500, log2, none, ins.2⟩
              | Except.ok jwt => ⟨jsonResponse 201 (JSON.str jwt), log2, some jwt, ins.2⟩

/-- The handler `Login`. -/
def Login {σ : Type} (env : Env) (db : DB σ) (r : Request LoginUserRequest) (s : σ) :
    Outcome σ :=
  if r.Method ≠ "POST" then ⟨httpError "Method not allowed" 405, [], none, s⟩
  else
    match r.Body with
    | none => ⟨httpError "Invalid JSON" 400, [], none, s⟩
    | some body =>
      if TrimSpace body.Email = "" ∨ TrimSpace body.Password = "" then
        ⟨httpError "Email and password are required" 400, [], none, s⟩
      else
        let res := db.QueryRowUser checkUserQuery [Value.str body.Email] s
        let log := [Stmt.mk checkUserQuery [Value.str body.Email]]
        if res.1.1 ≠ none then ⟨httpError "Something went wrong" 401, log, none, res.2⟩
        else if res.1.2.ID = UUID.Nil then
          ⟨httpError "Something went wrong" 401, log, none, res.2⟩
        else
          match CheckPassword env body.Password res.1.2.Password with
          | some _ => ⟨httpError "Something went wrong" 401, log, none, res.2⟩
          | none =>
            match GenerateJWT env res.1.2.ID res.1.2.Email with
            | Except.error _ => ⟨httpError "Error generating JWT" 500, log, none, res.2⟩
            | Except.ok jwt => ⟨jsonResponse 200 (JSON.str jwt), log, some jwt, res.2⟩

/-! ## The update builder, in the words of the specification -/

/-- The optional fields of an update request in their fixed order, each under
its column name. -/
def updateFields (req : UpdateTodoRequest) : List (String × Option Value) :=
  [("todo", req.Todo.map Value.str), ("completed", req.Completed.map Value.bool)]

/-- The fields whose value is present, in supply order. -/
def presentFields (fields : List (String × Option Value)) : List (String × Value) :=
  fields.filterMap fun f => f.2.map fun v => (f.1, v)

/-- The assignments `column = $k` of the present fields, `k` counting 1, 2, ... -/
def assignments (present : List (String × Value)) : List String :=
  present.enum.map fun p => p.2.1 ++ " = $" ++ toString (p.1 + 1)

/-- The text of the update statement for the given present fields: the
assignments joined by ", ", and the row identifier under the next placeholder. -/
def updateQuery (present : List (String × Value)) : String :=
  "UPDATE todos SET " ++ ", ".intercalate (assignments present) ++ " WHERE id = $" ++
    toString (present.length + 1) ++ " RETURNING id, todo, completed, created_at, updated_at"

/-! ## Instances used in the examples -/

/-- The zero value of `models.User`. -/
def User.zero : User := ⟨UUID.Nil, "", "", ⟨0⟩, ⟨0⟩⟩

/-- The zero value of `models.Todo`. -/
def Todo.zero : TodoApi.Todo := ⟨UUID.Nil, "", false, ⟨0⟩, ⟨0⟩⟩

/-- The value of a hexadecimal digit. -/
def hexVal (c : Char) : Option Nat :=
  let n := c.toNat
  if 48 ≤ n ∧ n ≤ 57 then some (n - 48)
  else if 97 ≤ n ∧ n ≤ 102 then some (n - 87)
  else if 65 ≤ n ∧ n ≤ 70 then some (n - 55)
  else none

/-- A sample `uuid.Parse`: it accepts the canonical 36-character form
`xxxxxxxx-xxxx-xxxx-xxxx-xxxxxxxxxxxx` only. -/
def sampleParse (s : String) : Except GoError UUID :=
  let cs := s.data
  if cs.length = 36 ∧ cs.get? 8 = some '-' ∧ cs.get? 13 = some '-' ∧ cs.get? 18 = some '-' ∧
      cs.get? 23 = some '-' then
    match (cs.filter (fun c => c ≠ '-')).mapM hexVal with
    | some ds =>
      if ds.length = 32 then Except.ok ⟨ds.foldl (fun a d => 16 * a + d) 0⟩
      else Except.error "invalid UUID format"
    | none => Except.error "invalid UUID format"
  else Except.error "invalid UUID length"

/-- A sample `UUID.String`: the number in decimal, prefixed by "uuid-". -/
def sampleString (u : UUID) : String := "uuid-" ++ toString u.val

/-- A stand-in for `bcrypt.GenerateFromPassword` in the examples (it is not a
hash): inputs longer than 72 bytes are refused, as bcrypt does since
`x/crypto` v0.5.0, the others are tagged. -/
def sampleGenerate (password : String) : Except GoError String :=
  if password.utf8ByteSize > 72 then Except.error "bcrypt: password length exceeds 72 bytes"
  else Except.ok ("$2a$10$" ++ password)

/-- The stand-in for `bcrypt.CompareHashAndPassword` that goes with
`sampleGenerate`. -/
def sampleCompare (hash password : String) : Option GoError :=
  if hash = "$2a$10$" ++ password then none
  else some "crypto/bcrypt: hashedPassword is not the hash of the given password"

/-- How the sample signer prints a claim value. -/
def ClaimValue.render : ClaimValue → String
  | ClaimValue.str s => s
  | ClaimValue.num n => toString n

/-- A stand-in for `SignedString` in the examples: the claim values joined by
dots; it never fails. -/
def sampleSign (c : MapClaims) : Except GoError String :=
  Except.ok (".".intercalate (c.map fun kv => kv.2.render))

/-- A sample environment: the clock reads 12:00:00.5 twice. -/
def sampleEnv : Env :=
  { uuidParse := sampleParse
    uuidString := sampleString
    bcryptGenerate := sampleGenerate
    bcryptCompare := sampleCompare
    SignedString := sampleSign
    now := fun _ => ⟨43200500000000⟩ }

/-- The sample environment with a clock that reads 12:00:00.999999999 first and
12:00:01.000000000 next. -/
def tickEnv : Env :=
  { sampleEnv with now := fun k => if k = 0 then ⟨43200999999999⟩ else ⟨43201000000000⟩ }

/-- A store without rows: every query reports `sql.ErrNoRows`, every `Exec`
affects no row. -/
def emptyDB : DB Unit :=
  { QueryRowTodo := fun _ _ s => ((some DBError.ErrNoRows, Todo.zero), s)
    QueryRowUser := fun _ _ s => ((some DBError.ErrNoRows, User.zero), s)
    QueryRowUUID := fun _ _ s => ((some DBError.ErrNoRows, UUID.Nil), s)
    Exec := fun _ _ s => (Except.ok (Except.ok 0), s) }

/-- The state of the in-memory store: the rows of `users`, a counter from which
identifiers are assigned, and the store's clock. -/
structure MemStore where
  users : List User
  nextID : Nat
  clock : Time
  deriving DecidableEq, Repr

/-- The lookup of the in-memory store: the first row with the given email. -/
def MemStore.selectByEmail (s : MemStore) (email : String) : (Option DBError × User) × MemStore :=
  match s.users.find? (fun u => u.Email = email) with
  | some u => ((none, u), s)
  | none => ((some DBError.ErrNoRows, User.zero), s)

/-- The insert of the in-memory store: a new row with a fresh, non-zero
identifier is appended. No uniqueness constraint is assumed on `email`. -/
def MemStore.insertUser (s : MemStore) (email password : String) :
    (Option DBError × UUID) × MemStore :=
  let id : UUID := ⟨s.nextID + 1⟩
  ((none, id), { s with users := s.users ++ [⟨id, email, password, s.clock, s.clock⟩],
                        nextID := s.nextID + 1 })

/-- Modelled from the spec: the `users` table behind `internal/database`
(missing, as is any schema). It answers the two statements the user handlers
send and refuses everything else; calls never fail for other reasons. -/
def memDB : DB MemStore :=
  { QueryRowTodo := fun _ _ s => ((some (DBError.other "relation not modelled"), Todo.zero), s)
    QueryRowUser := fun q args s =>
      if q = checkUserQuery then
        match args with
        | [Value.str email] => s.selectByEmail email
        | _ => ((some (DBError.other "bad arguments"), User.zero), s)
      else ((some (DBError.other "unknown statement"), User.zero), s)
    QueryRowUUID := fun q args s =>
      if q = insertUserQuery then
        match args with
        | [Value.str email, Value.str password] => s.insertUser email password
        | _ => ((some (DBError.other "bad arguments"), UUID.Nil), s)
      else ((some (DBError.other "unknown statement"), UUID.Nil), s)
    Exec := fun _ _ s => (Except.error (DBError.other "relation not modelled"), s) }

/-- The in-memory store behind a connection on which every lookup of a user
fails (with an error that is not `sql.ErrNoRows`) while inserts go through. -/
def flakyDB : DB MemStore :=
  { memDB with
    QueryRowUser := fun _ _ s => ((some (DBError.other "connection reset by peer"), User.zero), s) }

/-- A store holding one user, registered as alice@example.com with the password
"correct horse". -/
def aliceStore : MemStore :=
  { users := [⟨⟨1⟩, "alice@example.com", "$2a$10$correct horse", ⟨1000⟩, ⟨1000⟩⟩]
    nextID := 1
    clock := ⟨2000⟩ }

/-- A store without users. -/
def noUsers : MemStore := { users := [], nextID := 0, clock := ⟨2000⟩ }

/-- A password of 73 bytes. -/
def longPassword : String := String.mk (List.replicate 73 'p')

/-! ## Theorems -/

/-- The update statement built from the fields present in the request. -/
theorem UpdateTodo.finish_stmts {σ : Type} (db : DB σ) (s : σ) (id : UUID)
    (req : UpdateTodoRequest) (setParts : List String) (args : List Value) (argCount : Nat)
    (h : setParts ≠ [] ∨ req.Completed ≠ none) :
    (UpdateTodo.finish db s id req setParts args argCount).stmts =
      [⟨"UPDATE todos SET " ++ ", ".intercalate
          (setParts ++ match req.Completed with
            | some _ => [sprintfD "completed = $" argCount]
            | none => []) ++
          sprintfD " WHERE id = $"
            (match req.Completed with | some _ => argCount + 1 | none => argCount) ++
          " RETURNING id, todo, completed, created_at, updated_at",
        (args ++ match req.Completed with | some c => [Value.bool c] | none => []) ++
          [Value.uuid id]⟩] := by
  unfold UpdateTodo.finish
  cases hc : req.Completed with
  | none =>
    have hs : setParts ≠ [] := by
      rcases h with h | h
      · exact h
      · exact absurd hc h
    have hl : setParts.length ≠ 0 := by
      intro h0
      exact hs (List.length_eq_zero.mp h0)
    simp only [hl, if_false, List.append_nil]
    split <;> rfl
  | some c =>
    have hl : (setParts ++ [sprintfD "completed = $" argCount]).length ≠ 0 := by simp
    simp only [hl, if_false]
    split <;> rfl

/-- What `UpdateTodo` does once the method, the id and the body are accepted and
the text, if present, is not blank. -/
theorem UpdateTodo_accepted {σ : Type} (env : Env) (db : DB σ) (s : σ)
    (r : Request UpdateTodoRequest) (id : UUID) (req : UpdateTodoRequest)
    (hm : r.Method = "PUT") (hid : extractIDFromPath env r.Path = Except.ok id)
    (hb : r.Body = some req) (hnb : ∀ t, req.Todo = some t → TrimSpace t ≠ "") :
    (req.Todo = none ∧ req.Completed = none →
      (UpdateTodo env db r s).resp = httpError "No fields to update" 400 ∧
      (UpdateTodo env db r s).stmts = []) ∧
    (¬ (req.Todo = none ∧ req.Completed = none) →
      (UpdateTodo env db r s).stmts =
        [⟨updateQuery (presentFields (updateFields req)),
          (presentFields (updateFields req)).map Prod.snd ++ [Value.uuid id]⟩]) := by
  obtain ⟨todo, completed⟩ := req
  unfold UpdateTodo
  simp only [hm, hid, hb, ne_eq, not_true_eq_false, if_false]
  cases todo with
  | none =>
    cases completed with
    | none =>
      refine ⟨fun _ => ⟨rfl, rfl⟩, fun h => absurd ⟨rfl, rfl⟩ h⟩
    | some c =>
      refine ⟨fun h => by simp at h, fun _ => ?_⟩
      rw [UpdateTodo.finish_stmts db s id _ _ _ _ (Or.inr (by simp))]
      simp [updateQuery, assignments, presentFields, updateFields, List.enum, List.enumFrom,
        sprintfD]
      decide
  | some t =>
    have ht : TrimSpace t ≠ "" := hnb t rfl
    simp only [ht, if_false]
    refine ⟨fun h => by simp at h, fun _ => ?_⟩
    rw [UpdateTodo.finish_stmts db s id _ _ _ _ (Or.inl (by simp))]
    cases completed <;>
    · simp [updateQuery, assignments, presentFields, updateFields, List.enum, List.enumFrom,
        sprintfD]
      decide


/-- Every statement `UpdateTodo` sends is the update statement of the fields
present in the decoded body, with the present values and then an id as its
arguments. -/
theorem UpdateTodo_stmt_shape {σ : Type} (env : Env) (db : DB σ) (s : σ)
    (r : Request UpdateTodoRequest) (req : UpdateTodoRequest) (st : Stmt)
    (hb : r.Body = some req) (hst : st ∈ (UpdateTodo env db r s).stmts) :
    st.query = updateQuery (presentFields (updateFields req)) ∧
    (∃ id, extractIDFromPath env r.Path = Except.ok id ∧
      st.args = (presentFields (updateFields req)).map Prod.snd ++ [Value.uuid id]) ∧
    (∀ t, req.Todo = some t → TrimSpace t ≠ "") := by
  by_cases hm : r.Method = "PUT"
  · cases hid : extractIDFromPath env r.Path with
    | error e => simp [UpdateTodo, hm, hid] at hst
    | ok id =>
      by_cases hnb : ∀ t, req.Todo = some t → TrimSpace t ≠ ""
      · have key := UpdateTodo_accepted env db s r id req hm hid hb hnb
        by_cases hnone : req.Todo = none ∧ req.Completed = none
        · rw [(key.1 hnone).2] at hst
          simp at hst
        · rw [key.2 hnone] at hst
          simp only [List.mem_singleton] at hst
          subst hst
          exact ⟨rfl, ⟨id, rfl, rfl⟩, hnb⟩
      · exfalso
        push_neg at hnb
        obtain ⟨t, ht, hblank⟩ := hnb
        simp [UpdateTodo, hm, hid, hb, ht, hblank] at hst
  · simp [UpdateTodo, hm] at hst

/-- The text of the update statement is a function of which fields are present. -/
theorem updateQuery_presence (req₁ req₂ : UpdateTodoRequest)
    (ht : req₁.Todo.isSome = req₂.Todo.isSome)
    (hc : req₁.Completed.isSome = req₂.Completed.isSome) :
    updateQuery (presentFields (updateFields req₁)) =
      updateQuery (presentFields (updateFields req₂)) := by
  obtain ⟨t₁, c₁⟩ := req₁
  obtain ⟨t₂, c₂⟩ := req₂
  cases t₁ <;> cases t₂ <;> simp at ht <;> cases c₁ <;> cases c₂ <;> simp at hc <;>
    simp [updateQuery, assignments, presentFields, updateFields, List.enum, List.enumFrom]

/-- C1: an `UpdateTodo` request with a valid id, a decodable body and no blank
text is refused with 400 "No fields to update", without a statement, when
neither field is present; otherwise exactly one statement is sent, whose SET
clause lists the present fields in the order todo, completed as `column = $k`
with k = 1, 2, ..., whose arguments are the present values in that order
followed by the id, and whose WHERE placeholder is the number of present
fields plus one. -/
theorem UpdateTodo_builds_statement {σ : Type} (env : Env) (db : DB σ) (s : σ)
    (r : Request UpdateTodoRequest) (id : UUID) (req : UpdateTodoRequest)
    (hm : r.Method = "PUT") (hid : extractIDFromPath env r.Path = Except.ok id)
    (hb : r.Body = some req) (hnb : ∀ t, req.Todo = some t → TrimSpace t ≠ "") :
    (req.Todo = none ∧ req.Completed = none →
      (UpdateTodo env db r s).resp = httpError "No fields to update" 400 ∧
      (UpdateTodo env db r s).stmts = []) ∧
    (¬ (req.Todo = none ∧ req.Completed = none) →
      (UpdateTodo env db r s).stmts =
        [⟨updateQuery (presentFields (updateFields req)),
          (presentFields (updateFields req)).map Prod.snd ++ [Value.uuid id]⟩]) :=
  UpdateTodo_accepted env db s r id req hm hid hb hnb

/-- The example of C1 with both fields present. -/
theorem UpdateTodo_builds_statement_witness :
    (UpdateTodo sampleEnv emptyDB
        ⟨"PUT", "/todos/123e4567-e89b-12d3-a456-426614174000", some ⟨some "x", some true⟩⟩
        ()).stmts =
      [⟨"UPDATE todos SET todo = $1, completed = $2 WHERE id = $3 RETURNING id, todo, completed, created_at, updated_at",
        [Value.str "x", Value.bool true,
          Value.uuid ⟨0x123e4567e89b12d3a456426614174000⟩]⟩] :=
  (UpdateTodo_builds_statement sampleEnv emptyDB ()
    ⟨"PUT", "/todos/123e4567-e89b-12d3-a456-426614174000", some ⟨some "x", some true⟩⟩
    ⟨0x123e4567e89b12d3a456426614174000⟩ ⟨some "x", some true⟩ rfl rfl rfl
    (fun t ht => by
      have : t = "x" := by simpa using ht.symm
      subst this
      decide)).2 (by simp)
/-- C2: two update requests that reach the store with the same presence pattern
of text and completed send the same SQL text, whatever the text value, the
completed value, the id, the store and the environment are. -/
theorem UpdateTodo_query_independent_of_values {σ₁ σ₂ : Type} (env₁ env₂ : Env)
    (db₁ : DB σ₁) (db₂ : DB σ₂) (s₁ : σ₁) (s₂ : σ₂)
    (r₁ r₂ : Request UpdateTodoRequest) (req₁ req₂ : UpdateTodoRequest) (st₁ st₂ : Stmt)
    (hb₁ : r₁.Body = some req₁) (hb₂ : r₂.Body = some req₂)
    (ht : req₁.Todo.isSome = req₂.Todo.isSome)
    (hc : req₁.Completed.isSome = req₂.Completed.isSome)
    (h₁ : st₁ ∈ (UpdateTodo env₁ db₁ r₁ s₁).stmts)
    (h₂ : st₂ ∈ (UpdateTodo env₂ db₂ r₂ s₂).stmts) :
    st₁.query = st₂.query := by
  rw [(UpdateTodo_stmt_shape env₁ db₁ s₁ r₁ req₁ st₁ hb₁ h₁).1,
    (UpdateTodo_stmt_shape env₂ db₂ s₂ r₂ req₂ st₂ hb₂ h₂).1]
  exact updateQuery_presence req₁ req₂ ht hc

/-- Two updates of the text only, with different texts and ids, sent to
different stores: the SQL text is the same. -/
theorem UpdateTodo_query_independent_of_values_witness :
    ((⟨updateQuery [("todo", Value.str "x")], [Value.str "x", Value.uuid ⟨1⟩]⟩ : Stmt) ∈
        (UpdateTodo sampleEnv emptyDB
          ⟨"PUT", "/todos/00000000-0000-0000-0000-000000000001", some ⟨some "x", none⟩⟩
          ()).stmts ∧
      (⟨updateQuery [("todo", Value.str "1; DROP TABLE todos")],
          [Value.str "1; DROP TABLE todos", Value.uuid ⟨2⟩]⟩ : Stmt) ∈
        (UpdateTodo tickEnv memDB
          ⟨"PUT", "/todos/00000000-0000-0000-0000-000000000002",
            some ⟨some "1; DROP TABLE todos", none⟩⟩
          noUsers).stmts) ∧
    (⟨updateQuery [("todo", Value.str "x")], [Value.str "x", Value.uuid ⟨1⟩]⟩ : Stmt).query =
      (⟨updateQuery [("todo", Value.str "1; DROP TABLE todos")],
        [Value.str "1; DROP TABLE todos", Value.uuid ⟨2⟩]⟩ : Stmt).query :=
  ⟨⟨by decide, by decide⟩,
    UpdateTodo_query_independent_of_values sampleEnv tickEnv emptyDB memDB () noUsers
      ⟨"PUT", "/todos/00000000-0000-0000-0000-000000000001", some ⟨some "x", none⟩⟩
      ⟨"PUT", "/todos/00000000-0000-0000-0000-000000000002",
        some ⟨some "1; DROP TABLE todos", none⟩⟩
      ⟨some "x", none⟩ ⟨some "1; DROP TABLE todos", none⟩ _ _ rfl rfl rfl rfl
      (by decide) (by decide)⟩

/-- C3: every text that `CreateTodo` or `UpdateTodo` passes to the store as an
argument is non-empty after trimming white space, and a request whose text is
present but blank is answered 400 without a statement, whether or not
completed is present too. -/
theorem todo_text_never_blank {σ : Type} (env : Env) (db : DB σ) (s : σ)
    (rc : Request CreateTodoRequest) (ru : Request UpdateTodoRequest) :
    (∀ st ∈ (CreateTodo db rc s).stmts, ∀ t, Value.str t ∈ st.args → TrimSpace t ≠ "") ∧
    (∀ st ∈ (UpdateTodo env db ru s).stmts, ∀ t, Value.str t ∈ st.args → TrimSpace t ≠ "") ∧
    (∀ req, rc.Method = "POST" → rc.Body = some req → TrimSpace req.Todo = "" →
      (CreateTodo db rc s).resp = httpError "Todo text is required" 400 ∧
      (CreateTodo db rc s).stmts = []) ∧
    (∀ req t, ru.Method = "PUT" → ru.Body = some req → req.Todo = some t →
      TrimSpace t = "" →
      ((UpdateTodo env db ru s).resp = httpError "Invalid todo ID" 400 ∨
        (UpdateTodo env db ru s).resp = httpError "Todo text cannot be empty" 400) ∧
      (UpdateTodo env db ru s).resp.status = 400 ∧
      (UpdateTodo env db ru s).stmts = []) := by
  refine ⟨?_, ?_, ?_, ?_⟩
  · intro st hst t ht
    unfold CreateTodo at hst
    by_cases hm : rc.Method = "POST"
    · cases hb : rc.Body with
      | none => simp [hm, hb] at hst
      | some req =>
        by_cases hblank : TrimSpace req.Todo = ""
        · simp [hm, hb, hblank] at hst
        · have hst' : st = ⟨createTodoQuery, [Value.str req.Todo]⟩ := by
            simp only [hm, hb, hblank, ne_eq, not_true_eq_false, if_false] at hst
            split at hst <;> simpa using hst
          subst hst'
          have : t = req.Todo := by simpa using ht
          subst this
          exact hblank
    · simp [hm] at hst
  · intro st hst t ht
    cases hb : ru.Body with
    | none =>
      exfalso
      unfold UpdateTodo at hst
      by_cases hm : ru.Method = "PUT"
      · cases hid : extractIDFromPath env ru.Path <;> simp [hm, hid, hb] at hst
      · simp [hm] at hst
    | some req =>
      obtain ⟨_, ⟨id, _, hargs⟩, hnb⟩ := UpdateTodo_stmt_shape env db s ru req st hb hst
      rw [hargs] at ht
      obtain ⟨todo, completed⟩ := req
      cases todo with
      | none =>
        cases completed <;> simp [presentFields, updateFields] at ht
      | some t' =>
        have ht' : t = t' := by
          cases completed <;> simpa [presentFields, updateFields] using ht
        subst ht'
        exact hnb t rfl
  · intro req hm hb hblank
    simp [CreateTodo, hm, hb, hblank]
  · intro req t hm hb ht hblank
    cases hid : extractIDFromPath env ru.Path with
    | error e => simp [UpdateTodo, hm, hid, httpError]
    | ok id => simp [UpdateTodo, hm, hid, hb, ht, hblank, httpError]

/-- A blank text together with completed: 400, nothing sent. -/
theorem todo_text_never_blank_witness :
    TrimSpace " \t " = "" ∧
    (UpdateTodo sampleEnv emptyDB
      ⟨"PUT", "/todos/00000000-0000-0000-0000-000000000001", some ⟨some " \t ", some true⟩⟩
      ()).resp.status = 400 ∧
    (UpdateTodo sampleEnv emptyDB
      ⟨"PUT", "/todos/00000000-0000-0000-0000-000000000001", some ⟨some " \t ", some true⟩⟩
      ()).stmts = [] :=
  ⟨by decide,
    ((todo_text_never_blank sampleEnv emptyDB () ⟨"POST", "/todos", some ⟨"buy milk"⟩⟩
      ⟨"PUT", "/todos/00000000-0000-0000-0000-000000000001",
        some ⟨some " \t ", some true⟩⟩).2.2.2
      ⟨some " \t ", some true⟩ " \t " rfl rfl rfl (by decide)).2⟩

/-- Splitting gives one more piece than there are separators. -/
theorem splitChars_length (sep : Char) (l : List Char) :
    (splitChars sep l).length = l.count sep + 1 := by
  induction l with
  | nil => rfl
  | cons c cs ih =>
    unfold splitChars
    by_cases h : c = sep
    · subst h
      simp [ih]
    · have hc : (c == sep) = false := by simpa using h
      simp only [h, if_false, List.count_cons, hc]
      cases hs : splitChars sep cs with
      | nil => rw [hs] at ih; simp at ih
      | cons p ps => rw [hs] at ih; simpa using ih

/-- Fewer than two pieces means that the separator does not occur. -/
theorem Split_length_lt_two (s : String) (sep : Char) :
    (Split s sep).length < 2 ↔ sep ∉ s.data := by
  unfold Split
  rw [List.length_map, splitChars_length]
  constructor
  · intro h
    have h0 : s.data.count sep = 0 := by omega
    exact List.count_eq_zero.mp h0
  · intro h
    rw [List.count_eq_zero.mpr h]
    decide

/-- The method `extractIDFromPath` fails when there are fewer than two segments
or the last one does not parse. -/
theorem extractIDFromPath_error_iff (env : Env) (path : String) :
    (∃ e, extractIDFromPath env path = Except.error e) ↔
      ((Split (Trim path "/") '/').length < 2 ∨
        ∃ e, env.uuidParse ((Split (Trim path "/") '/').getLastD "") = Except.error e) := by
  unfold extractIDFromPath
  by_cases h : (Split (Trim path "/") '/').length < 2
  · simp [h]
  · simp [h]

/-- When `extractIDFromPath` succeeds, its result is the parse of the last segment. -/
theorem extractIDFromPath_ok (env : Env) (path : String) (id : UUID)
    (h : extractIDFromPath env path = Except.ok id) :
    2 ≤ (Split (Trim path "/") '/').length ∧
      env.uuidParse ((Split (Trim path "/") '/').getLastD "") = Except.ok id := by
  unfold extractIDFromPath at h
  by_cases hl : (Split (Trim path "/") '/').length < 2
  · simp [hl] at h
  · simp only [hl, if_false] at h
    exact ⟨by omega, h⟩

/-- No response other than the one for a bad id is that response. -/
theorem GetTodo_invalid_id_iff {σ : Type} (env : Env) (db : DB σ) (s : σ) (path : String)
    (body : Option Unit) :
    (GetTodo env db ⟨"GET", path, body⟩ s).resp = httpError "Invalid todo ID" 400 ↔
      ∃ e, extractIDFromPath env path = Except.error e := by
  unfold GetTodo
  cases hid : extractIDFromPath env path with
  | error e => simp
  | ok id =>
    simp only [ne_eq, not_true_eq_false, if_false, exists_false, iff_false, reduceCtorEq]
    split <;> simp [httpError, jsonResponse]

/-- The same for `DeleteTodo`. -/
theorem DeleteTodo_invalid_id_iff {σ : Type} (env : Env) (db : DB σ) (s : σ) (path : String)
    (body : Option Unit) :
    (DeleteTodo env db ⟨"DELETE", path, body⟩ s).resp = httpError "Invalid todo ID" 400 ↔
      ∃ e, extractIDFromPath env path = Except.error e := by
  unfold DeleteTodo
  cases hid : extractIDFromPath env path with
  | error e => simp
  | ok id =>
    simp only [ne_eq, not_true_eq_false, if_false, exists_false, iff_false, reduceCtorEq]
    split
    · simp [httpError]
    · simp [httpError]
    · split <;> simp [httpError]

/-- The response of `UpdateTodo.finish` is never the one for a bad id. -/
theorem UpdateTodo.finish_resp_ne {σ : Type} (db : DB σ) (s : σ) (id : UUID)
    (req : UpdateTodoRequest) (setParts : List String) (args : List Value) (argCount : Nat) :
    (UpdateTodo.finish db s id req setParts args argCount).resp ≠
      httpError "Invalid todo ID" 400 := by
  have hne : httpError "No fields to update" 400 ≠ httpError "Invalid todo ID" 400 := by
    simp only [httpError, ne_eq, Response.mk.injEq, Body.plain.injEq, true_and, and_true]
    decide
  obtain ⟨todo, completed⟩ := req
  cases completed <;> simp only [UpdateTodo.finish] <;> split <;>
    first
    | exact hne
    | (split <;> simp [httpError, jsonResponse])

/-- The same for `UpdateTodo`. -/
theorem UpdateTodo_invalid_id_iff {σ : Type} (env : Env) (db : DB σ) (s : σ) (path : String)
    (body : Option UpdateTodoRequest) :
    (UpdateTodo env db ⟨"PUT", path, body⟩ s).resp = httpError "Invalid todo ID" 400 ↔
      ∃ e, extractIDFromPath env path = Except.error e := by
  unfold UpdateTodo
  cases hid : extractIDFromPath env path with
  | error e => simp
  | ok id =>
    simp only [ne_eq, not_true_eq_false, if_false, exists_false, iff_false, reduceCtorEq]
    cases body with
    | none =>
      simp only [httpError, Response.mk.injEq, Body.plain.injEq, true_and, and_true]
      decide
    | some req =>
      simp only
      split
      · split
        · simp only [httpError, Response.mk.injEq, Body.plain.injEq, true_and, and_true]
          decide
        · exact UpdateTodo.finish_resp_ne db s id req _ _ _
      · exact UpdateTodo.finish_resp_ne db s id req _ _ _

/-- C9: for every path, `GetTodo` (on GET), `UpdateTodo` (on PUT) and
`DeleteTodo` (on DELETE) answer 400 "Invalid todo ID" exactly when `extractIDFromPath` fails, and then send
nothing to the store; it fails exactly when the path without its leading and
trailing slashes has fewer than two segments (no slash is left in it) or its
last segment does not parse as a UUID; when it succeeds the id in the
statement is the parse of the last segment. -/
theorem invalid_id_iff_extract_fails {σ : Type} (env : Env) (db : DB σ) (s : σ)
    (path : String) (body : Option UpdateTodoRequest) :
    ((∃ e, extractIDFromPath env path = Except.error e) ↔
      ((Split (Trim path "/") '/').length < 2 ∨
        ∃ e, env.uuidParse ((Split (Trim path "/") '/').getLastD "") = Except.error e)) ∧
    ((Split (Trim path "/") '/').length < 2 ↔ '/' ∉ (Trim path "/").data) ∧
    ((GetTodo env db ⟨"GET", path, none⟩ s).resp = httpError "Invalid todo ID" 400 ↔
      ∃ e, extractIDFromPath env path = Except.error e) ∧
    ((UpdateTodo env db ⟨"PUT", path, body⟩ s).resp = httpError "Invalid todo ID" 400 ↔
      ∃ e, extractIDFromPath env path = Except.error e) ∧
    ((DeleteTodo env db ⟨"DELETE", path, none⟩ s).resp = httpError "Invalid todo ID" 400 ↔
      ∃ e, extractIDFromPath env path = Except.error e) ∧
    ((∃ e, extractIDFromPath env path = Except.error e) →
      (GetTodo env db ⟨"GET", path, none⟩ s).stmts = [] ∧
      (UpdateTodo env db ⟨"PUT", path, body⟩ s).stmts = [] ∧
      (DeleteTodo env db ⟨"DELETE", path, none⟩ s).stmts = []) ∧
    (∀ id, extractIDFromPath env path = Except.ok id →
      env.uuidParse ((Split (Trim path "/") '/').getLastD "") = Except.ok id ∧
      (GetTodo env db ⟨"GET", path, none⟩ s).stmts = [⟨getTodoQuery, [Value.uuid id]⟩] ∧
      (DeleteTodo env db ⟨"DELETE", path, none⟩ s).stmts =
        [⟨deleteTodoQuery, [Value.uuid id]⟩] ∧
      ∀ st ∈ (UpdateTodo env db ⟨"PUT", path, body⟩ s).stmts,
        st.args.getLast? = some (Value.uuid id)) := by
  refine ⟨extractIDFromPath_error_iff env path, Split_length_lt_two _ _,
    GetTodo_invalid_id_iff env db s path none, UpdateTodo_invalid_id_iff env db s path body,
    DeleteTodo_invalid_id_iff env db s path none, ?_, ?_⟩
  · rintro ⟨e, he⟩
    simp [GetTodo, UpdateTodo, DeleteTodo, he]
  · intro id hid
    refine ⟨(extractIDFromPath_ok env path id hid).2, ?_, ?_, ?_⟩
    · simp only [GetTodo, hid, ne_eq, not_true_eq_false, if_false]
      split <;> rfl
    · simp only [DeleteTodo, hid, ne_eq, not_true_eq_false, if_false]
      split
      · rfl
      · rfl
      · split <;> rfl
    · intro st hst
      cases body with
      | none => simp [UpdateTodo, hid] at hst
      | some req =>
        obtain ⟨_, ⟨id', hid', hargs⟩, _⟩ :=
          UpdateTodo_stmt_shape env db s ⟨"PUT", path, some req⟩ req st rfl hst
        have : id' = id := by
          have h := hid'.symm.trans hid
          simpa using h
        subst this
        rw [hargs]
        simp

/-- The path /todos/42: two segments, but 42 is no UUID, so 400 and no statement;
and the path /todos alone has a single segment. -/
theorem invalid_id_iff_extract_fails_witness :
    (∃ e, extractIDFromPath sampleEnv "/todos/42" = Except.error e) ∧
    (Split (Trim "/todos/" "/") '/').length < 2 ∧
    (GetTodo sampleEnv emptyDB ⟨"GET", "/todos/42", none⟩ ()).resp =
      httpError "Invalid todo ID" 400 ∧
    (GetTodo sampleEnv emptyDB ⟨"GET", "/todos/42", none⟩ ()).stmts = [] :=
  ⟨⟨_, rfl⟩, by decide,
    (invalid_id_iff_extract_fails sampleEnv emptyDB () "/todos/42" none).2.2.1.mpr ⟨_, rfl⟩,
    ((invalid_id_iff_extract_fails sampleEnv emptyDB () "/todos/42" none).2.2.2.2.2.1
      ⟨_, rfl⟩).1⟩

/-- C4: a login for which the lookup reports no row and a login for which the
record is found but the password does not verify get the same response,
401 with the body "Something went wrong", and neither obtains a token. -/
theorem Login_unknown_email_same_as_wrong_password {σ₁ σ₂ : Type} (env₁ env₂ : Env)
    (db₁ : DB σ₁) (db₂ : DB σ₂) (s₁ : σ₁) (s₂ : σ₂)
    (r₁ r₂ : Request LoginUserRequest) (b₁ b₂ : LoginUserRequest)
    (hm₁ : r₁.Method = "POST") (hm₂ : r₂.Method = "POST")
    (hb₁ : r₁.Body = some b₁) (hb₂ : r₂.Body = some b₂)
    (hn₁ : TrimSpace b₁.Email ≠ "" ∧ TrimSpace b₁.Password ≠ "")
    (hn₂ : TrimSpace b₂.Email ≠ "" ∧ TrimSpace b₂.Password ≠ "")
    (hunknown : (db₁.QueryRowUser checkUserQuery [Value.str b₁.Email] s₁).1.1 =
      some DBError.ErrNoRows)
    (hfound : (db₂.QueryRowUser checkUserQuery [Value.str b₂.Email] s₂).1.1 = none)
    (hwrong : CheckPassword env₂ b₂.Password
      (db₂.QueryRowUser checkUserQuery [Value.str b₂.Email] s₂).1.2.Password ≠ none) :
    (Login env₁ db₁ r₁ s₁).resp = (Login env₂ db₂ r₂ s₂).resp ∧
    (Login env₁ db₁ r₁ s₁).resp = httpError "Something went wrong" 401 ∧
    (Login env₁ db₁ r₁ s₁).token = none ∧
    (Login env₂ db₂ r₂ s₂).token = none := by
  have h1 : (Login env₁ db₁ r₁ s₁).resp = httpError "Something went wrong" 401 ∧
      (Login env₁ db₁ r₁ s₁).token = none := by
    simp [Login, hm₁, hb₁, hn₁.1, hn₁.2, hunknown]
  have h2 : (Login env₂ db₂ r₂ s₂).resp = httpError "Something went wrong" 401 ∧
      (Login env₂ db₂ r₂ s₂).token = none := by
    simp only [Login, hm₂, hb₂, hn₂.1, hn₂.2, hfound, ne_eq, not_true_eq_false, if_false,
      or_self]
    split
    · exact ⟨rfl, rfl⟩
    · cases hc : CheckPassword env₂ b₂.Password
          (db₂.QueryRowUser checkUserQuery [Value.str b₂.Email] s₂).1.2.Password with
      | none => exact absurd hc hwrong
      | some e => exact ⟨rfl, rfl⟩
  exact ⟨h1.1.trans h2.1.symm, h1.1, h1.2, h2.2⟩

/-- An unknown address and alice with a wrong password: the same 401. -/
theorem Login_unknown_email_same_as_wrong_password_witness :
    (Login sampleEnv memDB ⟨"POST", "/login", some ⟨"nobody@example.com", "pw"⟩⟩
        aliceStore).resp =
      (Login sampleEnv memDB ⟨"POST", "/login", some ⟨"alice@example.com", "wrong"⟩⟩
        aliceStore).resp ∧
    (Login sampleEnv memDB ⟨"POST", "/login", some ⟨"nobody@example.com", "pw"⟩⟩
        aliceStore).resp = httpError "Something went wrong" 401 :=
  have h := Login_unknown_email_same_as_wrong_password sampleEnv sampleEnv memDB memDB
    aliceStore aliceStore
    ⟨"POST", "/login", some ⟨"nobody@example.com", "pw"⟩⟩
    ⟨"POST", "/login", some ⟨"alice@example.com", "wrong"⟩⟩
    ⟨"nobody@example.com", "pw"⟩ ⟨"alice@example.com", "wrong"⟩
    rfl rfl rfl rfl (by decide) (by decide) (by decide) (by decide) (by decide)
  ⟨h.1, h.2.1⟩

/-- The lookup of the in-memory store when no row has the email. -/
theorem MemStore.selectByEmail_absent (st : MemStore) (email : String)
    (h : ∀ u ∈ st.users, u.Email ≠ email) :
    st.selectByEmail email = ((some DBError.ErrNoRows, User.zero), st) := by
  unfold MemStore.selectByEmail
  have : st.users.find? (fun u => decide (u.Email = email)) = none := by
    rw [List.find?_eq_none]
    intro u hu
    simpa using h u hu
  rw [this]

/-- The lookup of the in-memory store right after a row with the email was
appended: it reports a row. -/
theorem MemStore.selectByEmail_after_insert (st : MemStore) (email password : String) :
    (((st.insertUser email password).2).selectByEmail email).1.1 = none ∧
    (((st.insertUser email password).2).selectByEmail email).2 =
      (st.insertUser email password).2 := by
  unfold MemStore.selectByEmail
  cases hf : (st.insertUser email password).2.users.find? (fun u => decide (u.Email = email)) with
  | some u => exact ⟨rfl, rfl⟩
  | none =>
    exfalso
    rw [List.find?_eq_none] at hf
    have := hf ⟨⟨st.nextID + 1⟩, email, password, st.clock, st.clock⟩
      (by simp [MemStore.insertUser])
    simp at this

/-- When hashing succeeds and the lookup reports a record, `Signup` answers 409
after the lookup alone. -/
theorem Signup_conflict {σ : Type} (env : Env) (db : DB σ) (s : σ)
    (r : Request CreateUserRequest) (b : CreateUserRequest) (h : String)
    (hm : r.Method = "POST") (hb : r.Body = some b)
    (hn : TrimSpace b.Email ≠ "" ∧ TrimSpace b.Password ≠ "")
    (hh : HashPassword env b.Password = Except.ok h)
    (hfound : (db.QueryRowUser checkUserQuery [Value.str b.Email] s).1.1 = none) :
    (Signup env db r s).resp = httpError "User already exists" 409 ∧
    (Signup env db r s).stmts = [⟨checkUserQuery, [Value.str b.Email]⟩] ∧
    (Signup env db r s).token = none ∧
    (Signup env db r s).state = (db.QueryRowUser checkUserQuery [Value.str b.Email] s).2 := by
  simp [Signup, hm, hb, hn.1, hn.2, hh, hfound]

/-- A first signup on the in-memory store, with hashing and signing succeeding
and no row with the email: 201, the token, and the row is appended. -/
theorem Signup_first {env : Env} (st : MemStore) (r : Request CreateUserRequest)
    (b : CreateUserRequest) (h jwt : String)
    (hm : r.Method = "POST") (hb : r.Body = some b)
    (hn : TrimSpace b.Email ≠ "" ∧ TrimSpace b.Password ≠ "")
    (hh : HashPassword env b.Password = Except.ok h)
    (habs : ∀ u ∈ st.users, u.Email ≠ b.Email)
    (hj : GenerateJWT env ⟨st.nextID + 1⟩ b.Email = Except.ok jwt) :
    (Signup env memDB r st).resp = jsonResponse 201 (JSON.str jwt) ∧
    (Signup env memDB r st).token = some jwt ∧
    (Signup env memDB r st).state = (st.insertUser b.Email h).2 := by
  have hsel : memDB.QueryRowUser checkUserQuery [Value.str b.Email] st =
      ((some DBError.ErrNoRows, User.zero), st) := by
    simp only [memDB, if_true]
    exact MemStore.selectByEmail_absent st b.Email habs
  have hins : memDB.QueryRowUUID insertUserQuery [Value.str b.Email, Value.str h] st =
      st.insertUser b.Email h := by
    simp only [memDB, if_true]
  have hid : (st.insertUser b.Email h).1 = (none, ⟨st.nextID + 1⟩) := rfl
  simp only [Signup, hm, hb, hn.1, hn.2, hh, hsel, hins, hid, hj, ne_eq, not_true_eq_false,
    if_false, or_self, User.zero, reduceCtorEq, and_self]

/-- C5, as amended: when hashing the password succeeds and the lookup reports a
record for the email, `Signup` answers 409 and sends no insert; so, on the
in-memory store, two successive signups with the same email, the store
starting without it, give 201 with a token and then 409, exactly one row has
that email afterwards, and a store with at most one row per email stays so. -/
theorem Signup_duplicate_email (env : Env) (r₁ r₂ : Request CreateUserRequest)
    (b₁ b₂ : CreateUserRequest) (h₁ h₂ : String)
    (hm₁ : r₁.Method = "POST") (hm₂ : r₂.Method = "POST")
    (hb₁ : r₁.Body = some b₁) (hb₂ : r₂.Body = some b₂)
    (hn₁ : TrimSpace b₁.Email ≠ "" ∧ TrimSpace b₁.Password ≠ "")
    (hn₂ : TrimSpace b₂.Email ≠ "" ∧ TrimSpace b₂.Password ≠ "")
    (hh₁ : HashPassword env b₁.Password = Except.ok h₁)
    (hh₂ : HashPassword env b₂.Password = Except.ok h₂)
    (he : b₂.Email = b₁.Email) :
    (∀ (σ : Type) (db : DB σ) (s : σ),
      (db.QueryRowUser checkUserQuery [Value.str b₂.Email] s).1.1 = none →
      (Signup env db r₂ s).resp = httpError "User already exists" 409 ∧
      (Signup env db r₂ s).stmts = [⟨checkUserQuery, [Value.str b₂.Email]⟩] ∧
      (Signup env db r₂ s).token = none) ∧
    (∀ (st : MemStore) (jwt : String), (∀ u ∈ st.users, u.Email ≠ b₁.Email) →
      GenerateJWT env ⟨st.nextID + 1⟩ b₁.Email = Except.ok jwt →
      (Signup env memDB r₁ st).resp = jsonResponse 201 (JSON.str jwt) ∧
      (Signup env memDB r₁ st).token = some jwt ∧
      (Signup env memDB r₂ (Signup env memDB r₁ st).state).resp =
        httpError "User already exists" 409 ∧
      (Signup env memDB r₂ (Signup env memDB r₁ st).state).token = none ∧
      (Signup env memDB r₂ (Signup env memDB r₁ st).state).stmts =
        [⟨checkUserQuery, [Value.str b₂.Email]⟩] ∧
      ((Signup env memDB r₂ (Signup env memDB r₁ st).state).state.users.filter
        (fun u => u.Email = b₁.Email)).length = 1 ∧
      ((∀ e : String, (st.users.filter (fun u => u.Email = e)).length ≤ 1) →
        ∀ e : String,
          ((Signup env memDB r₂ (Signup env memDB r₁ st).state).state.users.filter
            (fun u => u.Email = e)).length ≤ 1)) := by
  constructor
  · intro σ db s hfound
    obtain ⟨ha, hb, hc, _⟩ := Signup_conflict env db s r₂ b₂ h₂ hm₂ hb₂ hn₂ hh₂ hfound
    exact ⟨ha, hb, hc⟩
  · intro st jwt habs hj
    obtain ⟨f1, f2, f3⟩ := Signup_first st r₁ b₁ h₁ jwt hm₁ hb₁ hn₁ hh₁ habs hj
    have hfound :
        (memDB.QueryRowUser checkUserQuery [Value.str b₂.Email]
          (st.insertUser b₁.Email h₁).2).1.1 = none ∧
        (memDB.QueryRowUser checkUserQuery [Value.str b₂.Email]
          (st.insertUser b₁.Email h₁).2).2 = (st.insertUser b₁.Email h₁).2 := by
      rw [he]
      simp only [memDB, if_true]
      exact MemStore.selectByEmail_after_insert st b₁.Email h₁
    obtain ⟨g1, g2, g3, g4⟩ :=
      Signup_conflict env memDB (st.insertUser b₁.Email h₁).2 r₂ b₂ h₂ hm₂ hb₂ hn₂ hh₂
        hfound.1
    rw [f3]
    have hnil : st.users.filter (fun u => decide (u.Email = b₁.Email)) = [] := by
      rw [List.filter_eq_nil_iff]
      intro u hu
      simpa using habs u hu
    refine ⟨f1, f2, g1, g3, g2, ?_, ?_⟩
    · rw [g4, hfound.2]
      simp [MemStore.insertUser, List.filter_append, hnil]
    · intro hinv e
      rw [g4, hfound.2]
      by_cases hee : b₁.Email = e
      · subst hee
        simp [MemStore.insertUser, List.filter_append, hnil]
      · have := hinv e
        simpa [MemStore.insertUser, List.filter_append, hee] using this

/-- Bob signs up twice on a store without users: 201 with a token, then 409. -/
theorem Signup_duplicate_email_witness :
    (Signup sampleEnv memDB ⟨"POST", "/signup", some ⟨"bob@example.com", "pw"⟩⟩
      noUsers).resp = jsonResponse 201 (JSON.str "uuid-1.bob@example.com.default.46800.43200") ∧
    (Signup sampleEnv memDB ⟨"POST", "/signup", some ⟨"bob@example.com", "other"⟩⟩
      (Signup sampleEnv memDB ⟨"POST", "/signup", some ⟨"bob@example.com", "pw"⟩⟩
        noUsers).state).resp = httpError "User already exists" 409 :=
  have h := (Signup_duplicate_email sampleEnv
    ⟨"POST", "/signup", some ⟨"bob@example.com", "pw"⟩⟩
    ⟨"POST", "/signup", some ⟨"bob@example.com", "other"⟩⟩
    ⟨"bob@example.com", "pw"⟩ ⟨"bob@example.com", "other"⟩ "$2a$10$pw" "$2a$10$other"
    rfl rfl rfl rfl (by decide) (by decide) rfl rfl rfl).2 noUsers
    "uuid-1.bob@example.com.default.46800.43200" (by simp [noUsers]) rfl
  ⟨h.1, h.2.2.1⟩

/-- C5, the claim as stated fails: alice is registered, the request carries her
email and a non-blank password of 73 bytes, which bcrypt refuses; the answer
is 500 "Error hashing password", not 409. -/
theorem Signup_existing_email_hash_failure :
    (∃ u ∈ aliceStore.users, u.Email = "alice@example.com") ∧
    TrimSpace "alice@example.com" ≠ "" ∧ TrimSpace longPassword ≠ "" ∧
    (Signup sampleEnv memDB ⟨"POST", "/signup", some ⟨"alice@example.com", longPassword⟩⟩
      aliceStore).resp = httpError "Error hashing password" 500 ∧
    (Signup sampleEnv memDB ⟨"POST", "/signup", some ⟨"alice@example.com", longPassword⟩⟩
      aliceStore).resp.status ≠ 409 := by
  refine ⟨by decide, by decide, by decide, rfl, by decide⟩

/-- The claims `GenerateJWT` signs: the subject, the email, the audience
"default", and the expiry one hour after the second in which the clock was
read first; the issue time is the second in which it was read next. -/
theorem jwtClaims_values (env : Env) (userID : UUID) (email : String) :
    (jwtClaims env userID email).get "sub" = some (ClaimValue.str (env.uuidString userID)) ∧
    (jwtClaims env userID email).get "email" = some (ClaimValue.str email) ∧
    (jwtClaims env userID email).get "aud" = some (ClaimValue.str "default") ∧
    (jwtClaims env userID email).get "exp" = some (ClaimValue.num ((env.now 0).Unix + 3600)) ∧
    (jwtClaims env userID email).get "iat" = some (ClaimValue.num (env.now 1).Unix) := by
  have hexp : ((env.now 0).Add Hour).Unix = (env.now 0).Unix + 3600 := by
    simp only [Time.Add, Time.Unix, Hour]
    exact Int.add_mul_ediv_right _ _ (by decide)
  refine ⟨?_, ?_, ?_, ?_, ?_⟩ <;>
    simp [jwtClaims, MapClaims.get, List.find?, hexp]

/-- C6 on a clock that passes a second boundary between the two readings of
`GenerateJWT` (12:00:00.999999999, then 12:00:01): the token is issued with
exp = 46800 and iat = 43201, a lifetime of 3599 seconds instead of 3600. -/
theorem GenerateJWT_lifetime_across_second :
    (tickEnv.now 0).nanos ≤ (tickEnv.now 1).nanos ∧
    GenerateJWT tickEnv ⟨1⟩ "alice@example.com" =
      Except.ok "uuid-1.alice@example.com.default.46800.43201" ∧
    (jwtClaims tickEnv ⟨1⟩ "alice@example.com").get "exp" = some (ClaimValue.num 46800) ∧
    (jwtClaims tickEnv ⟨1⟩ "alice@example.com").get "iat" = some (ClaimValue.num 43201) ∧
    (46800 : Int) - 43201 = 3599 := by
  refine ⟨by decide, rfl, by decide, by decide, by decide⟩

/-- C8 on a successful signup and a successful login: the body is the token as
a bare JSON string, not the object with a `token` field that
`models.LoginUserResponse` declares. -/
theorem Signup_Login_body_is_bare_string :
    (Signup sampleEnv memDB ⟨"POST", "/signup", some ⟨"bob@example.com", "pw"⟩⟩
      noUsers).resp =
      jsonResponse 201 (JSON.str "uuid-1.bob@example.com.default.46800.43200") ∧
    (Signup sampleEnv memDB ⟨"POST", "/signup", some ⟨"bob@example.com", "pw"⟩⟩
      noUsers).token = some "uuid-1.bob@example.com.default.46800.43200" ∧
    (Signup sampleEnv memDB ⟨"POST", "/signup", some ⟨"bob@example.com", "pw"⟩⟩
      noUsers).resp.body ≠
      Body.json (LoginUserResponse.toJSON ⟨"uuid-1.bob@example.com.default.46800.43200"⟩) ∧
    (Login sampleEnv memDB ⟨"POST", "/login", some ⟨"alice@example.com", "correct horse"⟩⟩
      aliceStore).resp =
      jsonResponse 200 (JSON.str "uuid-1.alice@example.com.default.46800.43200") ∧
    (Login sampleEnv memDB ⟨"POST", "/login", some ⟨"alice@example.com", "correct horse"⟩⟩
      aliceStore).token = some "uuid-1.alice@example.com.default.46800.43200" ∧
    (Login sampleEnv memDB ⟨"POST", "/login", some ⟨"alice@example.com", "correct horse"⟩⟩
      aliceStore).resp.body ≠
      Body.json (LoginUserResponse.toJSON ⟨"uuid-1.alice@example.com.default.46800.43200"⟩) := by
  have hs : (Signup sampleEnv memDB ⟨"POST", "/signup", some ⟨"bob@example.com", "pw"⟩⟩
      noUsers).resp =
      jsonResponse 201 (JSON.str "uuid-1.bob@example.com.default.46800.43200") := rfl
  have hl : (Login sampleEnv memDB
      ⟨"POST", "/login", some ⟨"alice@example.com", "correct horse"⟩⟩ aliceStore).resp =
      jsonResponse 200 (JSON.str "uuid-1.alice@example.com.default.46800.43200") := rfl
  refine ⟨hs, by decide, ?_, hl, by decide, ?_⟩
  · rw [hs]
    simp [jsonResponse, LoginUserResponse.toJSON]
  · rw [hl]
    simp [jsonResponse, LoginUserResponse.toJSON]

/-- C10 on a lookup that fails with an error other than `sql.ErrNoRows` while
the insert goes through: `Signup` takes the failure for "no such user",
inserts, and answers 201 with a token instead of 500; here a second row for
the same email is created. -/
theorem Signup_lookup_failure_issues_token :
    (flakyDB.QueryRowUser checkUserQuery [Value.str "alice@example.com"] aliceStore).1.1 =
      some (DBError.other "connection reset by peer") ∧
    (Signup sampleEnv flakyDB ⟨"POST", "/signup", some ⟨"alice@example.com", "pw"⟩⟩
      aliceStore).resp.status = 201 ∧
    (Signup sampleEnv flakyDB ⟨"POST", "/signup", some ⟨"alice@example.com", "pw"⟩⟩
      aliceStore).token = some "uuid-2.alice@example.com.default.46800.43200" ∧
    (Signup sampleEnv flakyDB ⟨"POST", "/signup", some ⟨"alice@example.com", "pw"⟩⟩
      aliceStore).stmts =
      [⟨checkUserQuery, [Value.str "alice@example.com"]⟩,
        ⟨insertUserQuery, [Value.str "alice@example.com", Value.str "$2a$10$pw"]⟩] ∧
    ((Signup sampleEnv flakyDB ⟨"POST", "/signup", some ⟨"alice@example.com", "pw"⟩⟩
      aliceStore).state.users.filter (fun u => u.Email = "alice@example.com")).length = 2 := by
  refine ⟨by decide, by decide, by decide, by decide, by decide⟩

end TodoApi
